import Mathlib

/-!
A shallow embedding of the query frontend in `src/frontend/src/App.jsx`:
the chart-shape inference and sanitization in the `ChartPreview` component
(lines 302-342) and the `handleQuery` submit handler (lines 21-53), together
with spec-side descriptions of the documented behaviour and theorems
relating the two.

JavaScript values are modelled by the inductive `JSVal`; JavaScript numbers
by `JSNum`, with finite values carried exactly as decimal mantissa/exponent
pairs (the claims under study depend only on finiteness and on coercion
success, not on binary64 rounding).  Host-language builtins used by the component (`typeof`,
truthiness, `Object.keys`, property read/write, `Number(...)` string
coercion, `String.prototype.trim`) are modelled explicitly below.
-/

namespace NLQuery

/-- A finite decimal value `m * 10 ^ e`, carried exactly.  The claims under
study depend only on finiteness, zero-ness and coercion success, never on
binary64 rounding, so an exact decimal representation is adequate. -/
structure DecNum where
  m : Int
  e : Int
deriving DecidableEq

/-- The decimal value of a natural number. -/
def DecNum.ofNat (n : Nat) : DecNum := ⟨(n : Int), 0⟩

/-- Decimal negation. -/
def DecNum.neg (d : DecNum) : DecNum := ⟨-d.m, d.e⟩

/-- A JavaScript number: a finite decimal value, NaN, or a signed
infinity. -/
inductive JSNum where
  | fin (d : DecNum)
  | nan
  | posInf
  | negInf
deriving DecidableEq

/-- The builtin `Number.isFinite` restricted to number arguments. -/
def JSNum.isFinite : JSNum → Bool
  | .fin _ => true
  | _ => false

/-- A JSON-style JavaScript value: `null`, `undefined`, a boolean, a number,
a string, a plain object (association list of fields in property order), or
an array. -/
inductive JSVal where
  | vNull
  | vUndefined
  | vBool (b : Bool)
  | vNum (n : JSNum)
  | vStr (s : String)
  | vObj (fields : List (String × JSVal))
  | vArr (elems : List JSVal)

/-- JavaScript truthiness: `null`, `undefined`, `false`, `0`, `NaN` and the
empty string are falsy; every other value, objects and arrays included, is
truthy. -/
def truthy : JSVal → Bool
  | .vNull => false
  | .vUndefined => false
  | .vBool b => b
  | .vNum (.fin d) => !(d.m == 0)
  | .vNum .nan => false
  | .vNum .posInf => true
  | .vNum .negInf => true
  | .vStr s => !(s == "")
  | .vObj _ => true
  | .vArr _ => true

/-- The JavaScript `typeof` operator.  Note `typeof null` is `"object"`, and
arrays are `"object"` as well. -/
def typeofV : JSVal → String
  | .vNull => "object"
  | .vUndefined => "undefined"
  | .vBool _ => "boolean"
  | .vNum _ => "number"
  | .vStr _ => "string"
  | .vObj _ => "object"
  | .vArr _ => "object"

/-- First-match lookup in an association list of object fields; a missing
property reads as `undefined`. -/
def lookupField (fs : List (String × JSVal)) (k : String) : JSVal :=
  match fs.find? (fun p => p.1 == k) with
  | some p => p.2
  | none => .vUndefined

/-- Property read `v[k]`: field lookup on objects, index lookup on arrays
(array indices enumerate as their decimal strings), `undefined` elsewhere. -/
def getField : JSVal → String → JSVal
  | .vObj fs, k => lookupField fs k
  | .vArr es, k =>
    match es.enum.find? (fun p => toString p.1 == k) with
    | some p => p.2
    | none => .vUndefined
  | _, _ => .vUndefined

/-- Property write `o[k] = v` on an object field list: overwrite the first
occurrence of the key in place, or append the new field at the end.  This is
the JavaScript property-assignment order semantics. -/
def setField : List (String × JSVal) → String → JSVal → List (String × JSVal)
  | [], k, v => [(k, v)]
  | p :: rest, k, v =>
    if p.1 == k then (k, v) :: rest else p :: setField rest k v

/-- The builtin `Object.keys`: field names in property order for objects,
index strings for arrays, empty otherwise. -/
def keysOf : JSVal → List String
  | .vObj fs => fs.map Prod.fst
  | .vArr es => (List.range es.length).map toString
  | _ => []

/-! ### The `Number(string)` coercion model

`Number(s)` trims whitespace, maps the empty remainder to `0`, accepts an
optionally signed decimal literal (with optional fraction and exponent),
`Infinity`, and unsigned radix literals `0x`/`0o`/`0b`, and yields `NaN` on
anything else.  Finite results are exact decimal values. -/

/-- Numeric value of a decimal digit character. -/
def digitVal (c : Char) : Nat := c.toNat - 48

/-- Value of a string of decimal digits. -/
def decDigitsVal (cs : List Char) : Nat :=
  cs.foldl (fun a c => a * 10 + digitVal c) 0

/-- Value of one digit in the given radix, if it is a valid digit. -/
def radixDigitVal (radix : Nat) (c : Char) : Option Nat :=
  let d :=
    if c.isDigit then some (c.toNat - 48)
    else if 'a' ≤ c && c ≤ 'z' then some (c.toNat - 97 + 10)
    else if 'A' ≤ c && c ≤ 'Z' then some (c.toNat - 65 + 10)
    else none
  match d with
  | some v => if v < radix then some v else none
  | none => none

/-- Parse a non-empty all-digits string in the given radix. -/
def parseRadix (radix : Nat) (cs : List Char) : Option Nat :=
  if cs.isEmpty then none
  else
    cs.foldl
      (fun acc c =>
        match acc, radixDigitVal radix c with
        | some a, some d => some (a * radix + d)
        | _, _ => none)
      (some 0)

/-- Split a character list into its leading decimal digits and the rest. -/
def splitDigits (cs : List Char) : List Char × List Char :=
  (cs.takeWhile Char.isDigit, cs.dropWhile Char.isDigit)

/-- Parse the exponent tail of a decimal literal: empty means exponent `0`,
otherwise `e`/`E`, an optional sign, and a non-empty digit string consuming
the whole remainder. -/
def parseExpPart : List Char → Option Int
  | [] => some 0
  | c :: rest =>
    if c = 'e' ∨ c = 'E' then
      let sd : Int × List Char :=
        match rest with
        | '+' :: r => (1, r)
        | '-' :: r => (-1, r)
        | r => (1, r)
      if sd.2.isEmpty || !(sd.2.all Char.isDigit) then none
      else some (sd.1 * (decDigitsVal sd.2 : Int))
    else none

/-- Parse an unsigned decimal literal `digits [. digits] [exp]` or
`. digits [exp]`, consuming the whole input; the integer and fraction digits
form the mantissa and the fraction length shifts the exponent. -/
def parseDec (cs : List Char) : Option DecNum :=
  let ir := splitDigits cs
  match ir.2 with
  | '.' :: rest2 =>
    let fr := splitDigits rest2
    if ir.1.isEmpty && fr.1.isEmpty then none
    else
      match parseExpPart fr.2 with
      | some e => some ⟨(decDigitsVal (ir.1 ++ fr.1) : Int), e - (fr.1.length : Int)⟩
      | none => none
  | _ =>
    if ir.1.isEmpty then none
    else
      match parseExpPart ir.2 with
      | some e => some ⟨(decDigitsVal ir.1 : Int), e⟩
      | none => none

/-- Whitespace trim on character lists (ASCII whitespace; the host trims a
slightly larger Unicode class, which no claim exercises). -/
def trimList (cs : List Char) : List Char :=
  ((cs.dropWhile Char.isWhitespace).reverse.dropWhile Char.isWhitespace).reverse

/-- The `String.prototype.trim` builtin. -/
def jsTrim (s : String) : String := ⟨trimList s.data⟩

/-- Parse an optionally signed decimal literal or `Infinity`. -/
def parseSignedDec (cs : List Char) : JSNum :=
  let core : List Char → Bool → JSNum := fun body neg =>
    if body = "Infinity".data then (if neg then .negInf else .posInf)
    else
      match parseDec body with
      | some d => .fin (if neg then d.neg else d)
      | none => .nan
  match cs with
  | '+' :: rest => core rest false
  | '-' :: rest => core rest true
  | _ => core cs false

/-- The `Number(string)` coercion. -/
def strToNumber (s : String) : JSNum :=
  match trimList s.data with
  | [] => .fin ⟨0, 0⟩
  | '0' :: c :: rest =>
    if c = 'x' ∨ c = 'X' then
      (match parseRadix 16 rest with | some n => .fin (.ofNat n) | none => .nan)
    else if c = 'o' ∨ c = 'O' then
      (match parseRadix 8 rest with | some n => .fin (.ofNat n) | none => .nan)
    else if c = 'b' ∨ c = 'B' then
      (match parseRadix 2 rest with | some n => .fin (.ofNat n) | none => .nan)
    else parseSignedDec ('0' :: c :: rest)
  | cs => parseSignedDec cs

/-- The `Number(value)` coercion on arbitrary values: `null` is `0`,
`undefined` is `NaN`, booleans are `0`/`1`, strings parse as above, plain
objects are `NaN`, and arrays coerce through their joined string (modelled
for the empty and relevant singleton cases; other arrays are `NaN`, which
approximates a few exotic nested-array cases no claim exercises). -/
def toNumber : JSVal → JSNum
  | .vNull => .fin ⟨0, 0⟩
  | .vUndefined => .nan
  | .vBool b => .fin (if b then ⟨1, 0⟩ else ⟨0, 0⟩)
  | .vNum n => n
  | .vStr s => strToNumber s
  | .vObj _ => .nan
  | .vArr [] => .fin ⟨0, 0⟩
  | .vArr [.vNum n] => n
  | .vArr [.vStr s] => strToNumber s
  | .vArr [.vNull] => .fin ⟨0, 0⟩
  | .vArr _ => .nan

/-! ### `ChartPreview` (App.jsx lines 302-342)

`chartStructure` is the inference memo (lines 303-327), `sanitizeRow` and
`sanitize` the sanitization memo (lines 329-342). -/

/-- The inferred chart shape: the x-axis key and the plotted series keys. -/
structure ChartStructure where
  xKey : String
  yKeys : List String
deriving DecidableEq

/-- The row predicate of lines 305 and 332: `row && typeof row === "object"`. -/
def isObjectRow (row : JSVal) : Bool :=
  truthy row && (typeofV row == "object")

/-- The category-key predicate of lines 311-314:
the value of the key has `typeof` in `["string", "number"]`. -/
def strOrNumKey (sample : JSVal) (key : String) : Bool :=
  (["string", "number"] : List String).contains (typeofV (getField sample key))

/-- The builtin `Number.isFinite` on an arbitrary value (no coercion). -/
def numberIsFinite (v : JSVal) : Bool :=
  match v with
  | .vNum n => n.isFinite
  | _ => false

/-- The value-key predicate of lines 318-322: not the category key, and the
sample value is a finite number. -/
def finiteNumberKey (sample : JSVal) (xKey key : String) : Bool :=
  if key == xKey then false
  else (typeofV (getField sample key) == "number") && numberIsFinite (getField sample key)

/-- Lines 303-327: infer the chart shape from the first object row of the
input, or yield no shape ("no chart"). -/
def chartStructure (data : JSVal) : Option ChartStructure :=
  match data with
  | .vArr rows =>
    if rows.length = 0 then none
    else
      match rows.find? isObjectRow with
      | none => none
      | some sample =>
        let possibleKeys := keysOf sample
        if possibleKeys.length = 0 then none
        else
          match possibleKeys.find? (strOrNumKey sample) with
          | none => none
          | some xKey =>
            if truthy (.vStr xKey) = false then none
            else
              let yKeys := possibleKeys.filter (finiteNumberKey sample xKey)
              if yKeys.length = 0 then none
              else some ⟨xKey, yKeys⟩
  | _ => none

/-- Lines 335-338: the sanitized entry value for one value key,
`Number.isFinite(Number(raw)) ? Number(raw) : null`. -/
def sanNum (v : JSVal) : JSVal :=
  if (toNumber v).isFinite then .vNum (toNumber v) else .vNull

/-- Lines 333-341: build one sanitized record, assigning each value key in
order and then the category key, exactly as the property writes execute. -/
def sanitizeRow (cs : ChartStructure) (row : JSVal) : JSVal :=
  let entry :=
    cs.yKeys.foldl (fun acc key => setField acc key (sanNum (getField row key))) []
  .vObj (setField entry cs.xKey (getField row cs.xKey))

/-- The list of rows of an array value. -/
def rowsOf : JSVal → List JSVal
  | .vArr es => es
  | _ => []

/-- Lines 329-342: the sanitized projection — empty with no shape, otherwise
keep the object rows and sanitize each. -/
def sanitize (data : JSVal) : List JSVal :=
  match chartStructure data with
  | none => []
  | some cs => ((rowsOf data).filter isObjectRow).map (sanitizeRow cs)

end NLQuery

namespace NLQuery

/-! ### `handleQuery` (App.jsx lines 13-53)

The component state is the six `useState` cells of `App` (lines 14-19).
`handleQuery` is modelled big-step: the outcome of the single awaited
network interaction (a parsed JSON body, or a thrown transport error from
`fetch` or `response.json()`) is an explicit parameter, and the handler is
the sequence of state-setter and fetch effects it executes, folded over the
state.  This keeps "which setters ran, in which order, how many times"
observable. -/

/-- The `useState` cells of `App` (lines 14-19).  `query` is the text input
(always a string); the other payload cells hold arbitrary response values,
with `null` as `JSVal.vNull`. -/
structure UIState where
  query : String
  sqlOutput : JSVal
  latency : JSVal
  chartData : JSVal
  isLoading : Bool
  error : JSVal

/-- The outcome of the awaited network interaction: a successfully parsed
JSON body, or a thrown transport failure (network error, non-JSON body,
timeout) caught by the `catch` block. -/
inductive FetchOutcome where
  | success (data : JSVal)
  | failure

/-- One observable step of `handleQuery`: a state-setter call or the
`fetch` request itself (with its JSON body). -/
inductive Effect where
  | setSqlOutput (v : JSVal)
  | setLatency (v : JSVal)
  | setChartData (v : JSVal)
  | setIsLoading (b : Bool)
  | setError (v : JSVal)
  | fetchCall (body : JSVal)

/-- The nullish-coalescing operator `a ?? b`. -/
def nullish (a b : JSVal) : JSVal :=
  match a with
  | .vNull => b
  | .vUndefined => b
  | v => v

/-- The logical-or operator `a || b` on values. -/
def jsOr (a b : JSVal) : JSVal :=
  if truthy a then a else b

/-- Lines 21-53 of App.jsx as the list of effects `handleQuery` executes for
a given starting state and network outcome: the empty-input guard, the
error-clear and loading-set, the fetch, the three-way branch on the parsed
body, and the final loading-clear. -/
def handleQueryTrace (s : UIState) (o : FetchOutcome) : List Effect :=
  if jsTrim s.query = "" then []
  else
    [.setError (.vStr ""), .setIsLoading true,
     .fetchCall (.vObj [("question", .vStr s.query)])] ++
    (match o with
     | .success data =>
       if truthy (getField data "results") then
         [.setSqlOutput (getField data "sql_query"),
          .setLatency (nullish (getField data "latency") .vNull),
          .setChartData (getField data "results")]
       else
         [.setSqlOutput (.vStr "Error generating SQL query"),
          .setLatency .vNull,
          .setChartData .vNull,
          .setError (jsOr (getField data "detail") (.vStr "Unable to generate SQL query."))]
     | .failure =>
       [.setSqlOutput (.vStr ""),
        .setLatency .vNull,
        .setChartData .vNull,
        .setError (.vStr "There was a problem connecting to the server.")]) ++
    [.setIsLoading false]

/-- Apply one effect to the state; the fetch itself does not change the
component state. -/
def applyEffect (s : UIState) : Effect → UIState
  | .setSqlOutput v => { s with sqlOutput := v }
  | .setLatency v => { s with latency := v }
  | .setChartData v => { s with chartData := v }
  | .setIsLoading b => { s with isLoading := b }
  | .setError v => { s with error := v }
  | .fetchCall _ => s

/-- Apply a list of effects in order. -/
def applyEffects (s : UIState) (es : List Effect) : UIState :=
  es.foldl applyEffect s

/-- The state transition of one `handleQuery` invocation. -/
def handleQuery (s : UIState) (o : FetchOutcome) : UIState :=
  applyEffects s (handleQueryTrace s o)

/-- The number of network requests a trace issues. -/
def fetchCount (es : List Effect) : Nat :=
  es.countP fun e => e matches .fetchCall _

/-- The number of times a trace sets the loading flag to `false`. -/
def loadingClearCount (es : List Effect) : Nat :=
  es.countP fun e => e matches .setIsLoading false

/-! ### Spec-side descriptions

These definitions transcribe the words of the specification (and of the
claims under scrutiny), not the code; the theorems below compare them with
the implementation definitions above. -/

/-- Spec wording: a row that is a non-null object (in the host language
arrays are objects too). -/
def isNonNullObject (v : JSVal) : Bool :=
  match v with
  | .vObj _ => true
  | .vArr _ => true
  | _ => false

/-- Spec wording: a value whose type is string or number. -/
def isStringOrNumber (v : JSVal) : Bool :=
  match v with
  | .vStr _ => true
  | .vNum _ => true
  | _ => false

/-- Spec wording: a value that holds a finite number. -/
def holdsFiniteNumber (v : JSVal) : Bool :=
  match v with
  | .vNum (.fin _) => true
  | _ => false

/-- The `vNull` test, used to state non-nullness. -/
def isNull (v : JSVal) : Bool :=
  match v with
  | .vNull => true
  | _ => false

/-- The chart-shape inference exactly as claim C1 words it, amended with the
one condition the code adds: a category key named by the empty string also
yields "no chart".  Result is `none` when the input is not a non-empty
array, when no row is a non-null object, when the sample row has no
string-or-number field, when the first such field is named `""`, or when no
remaining field holds a finite number; otherwise the first string-or-number
field is the category key and every remaining finite-number field, order
preserved, is a value key. -/
def specChartShape (data : JSVal) : Option ChartStructure :=
  match data with
  | .vArr rows =>
    if rows.isEmpty then none
    else
      match rows.find? isNonNullObject with
      | none => none
      | some sample =>
        match (keysOf sample).find? (fun k => isStringOrNumber (getField sample k)) with
        | none => none
        | some categoryKey =>
          if categoryKey = "" then none
          else
            let valueKeys :=
              ((keysOf sample).filter (fun k => k != categoryKey)).filter
                (fun k => holdsFiniteNumber (getField sample k))
            if valueKeys = [] then none else some ⟨categoryKey, valueKeys⟩
  | _ => none

/-- The chart-shape inference exactly as claim C1 words it, without the
amendment: the first string-or-number field is always accepted as the
category key, whatever its name. -/
def claimChartShape (data : JSVal) : Option ChartStructure :=
  match data with
  | .vArr rows =>
    if rows.isEmpty then none
    else
      match rows.find? isNonNullObject with
      | none => none
      | some sample =>
        match (keysOf sample).find? (fun k => isStringOrNumber (getField sample k)) with
        | none => none
        | some categoryKey =>
          let valueKeys :=
            ((keysOf sample).filter (fun k => k != categoryKey)).filter
              (fun k => holdsFiniteNumber (getField sample k))
          if valueKeys = [] then none else some ⟨categoryKey, valueKeys⟩
  | _ => none

/-- The per-key write step of the sanitized-record construction
(lines 335-338). -/
def sanStep (row : JSVal) (acc : List (String × JSVal)) (key : String) :
    List (String × JSVal) :=
  setField acc key (sanNum (getField row key))

/-! ### Concrete values used by the witnesses and counterexamples -/

/-- The sample input of the specification, section 8:
`[{"name":"A","value":5},{"name":"B","value":"oops"}]`. -/
def exC8 : JSVal :=
  .vArr [.vObj [("name", .vStr "A"), ("value", .vNum (.fin ⟨5, 0⟩))],
         .vObj [("name", .vStr "B"), ("value", .vStr "oops")]]

/-- A one-row input on which inference succeeds:
`[{"name":"A","value":5}]`. -/
def exC2 : JSVal :=
  .vArr [.vObj [("name", .vStr "A"), ("value", .vNum (.fin ⟨5, 0⟩))]]

/-- An input whose first string-or-number field is named by the empty
string: `[{"":"A","v":5}]`. -/
def exC1 : JSVal :=
  .vArr [.vObj [("", .vStr "A"), ("v", .vNum (.fin ⟨5, 0⟩))]]

/-- A sample row whose first qualifying field is named by the empty string:
`{"":"A","n":7}`. -/
def exC10row : JSVal :=
  .vObj [("", .vStr "A"), ("n", .vNum (.fin ⟨7, 0⟩))]

/-- An idle controller state with a non-empty query. -/
def s0 : UIState :=
  { query := "total sales by region", sqlOutput := .vStr "", latency := .vNull,
    chartData := .vNull, isLoading := false, error := .vStr "" }

/-- A controller state whose query is whitespace only. -/
def sBlank : UIState := { s0 with query := "   " }

/-- The failure response body of the specification, section 8:
`{"detail":"no such table"}`. -/
def dDetail : JSVal := .vObj [("detail", .vStr "no such table")]

/-- The success response body of the specification, section 8. -/
def d8 : JSVal :=
  .vObj [("results", .vArr [.vObj [("region", .vStr "west"), ("sales", .vNum (.fin ⟨10, 0⟩))],
                            .vObj [("region", .vStr "east"), ("sales", .vNum (.fin ⟨20, 0⟩))]]),
         ("sql_query", .vStr "SELECT ..."),
         ("latency", .vObj [("total_time", .vNum (.fin ⟨5, -1⟩))])]

/-- A response whose `results` field is present and non-null but falsy:
`{"results":0,"sql_query":"S"}`. -/
def dFalsy : JSVal :=
  .vObj [("results", .vNum (.fin ⟨0, 0⟩)), ("sql_query", .vStr "S")]

/-- A response whose `results` field is the empty array (truthy):
`{"results":[],"sql_query":"S"}`. -/
def dEmptyResults : JSVal :=
  .vObj [("results", .vArr []), ("sql_query", .vStr "S")]

/-! ### Helper lemmas -/

/-- The row predicate used by the code (truthiness plus `typeof`) is the
"non-null object" predicate of the specification. -/
theorem isObjectRow_eq : isObjectRow = isNonNullObject := by
  funext v
  cases v with
  | vNum n =>
    show (truthy (.vNum n) && (("number" == "object") : Bool)) = false
    rw [show (("number" == "object") : Bool) = false from rfl, Bool.and_false]
  | vBool b =>
    show (b && (("boolean" == "object") : Bool)) = false
    rw [show (("boolean" == "object") : Bool) = false from rfl, Bool.and_false]
  | vStr s =>
    show (!(s == "") && (("string" == "object") : Bool)) = false
    rw [show (("string" == "object") : Bool) = false from rfl, Bool.and_false]
  | vNull => rfl
  | vUndefined => rfl
  | vObj fs => rfl
  | vArr es => rfl

/-- The category-key predicate used by the code is the string-or-number
classification of the specification. -/
theorem strOrNumKey_eq (sample : JSVal) :
    strOrNumKey sample = fun k => isStringOrNumber (getField sample k) := by
  funext k
  show (["string", "number"] : List String).contains (typeofV (getField sample k))
      = isStringOrNumber (getField sample k)
  cases getField sample k <;> rfl

/-- The value-key predicate used by the code is the "not the category key,
and a finite number" classification of the specification. -/
theorem finiteNumberKey_eq (sample : JSVal) (x : String) :
    finiteNumberKey sample x =
      fun k => holdsFiniteNumber (getField sample k) && (k != x) := by
  funext k
  show finiteNumberKey sample x k = _
  rw [finiteNumberKey]
  by_cases hx : (k == x) = true
  · have hx2 : (k != x) = false := by simp [bne, hx]
    simp [hx, hx2]
  · have hx1 : (k == x) = false := by simpa using hx
    have hx2 : (k != x) = true := by simp [bne, hx1]
    rw [if_neg (by simp [hx1]), hx2, Bool.and_true]
    cases h : getField sample k with
    | vNum n => cases n <;> rfl
    | _ => rfl

/-- The implementation inference agrees everywhere with the amended
spec-side description `specChartShape`. -/
theorem chartStructure_eq_spec (data : JSVal) :
    chartStructure data = specChartShape data := by
  cases data with
  | vArr rows =>
    simp only [chartStructure, specChartShape, isObjectRow_eq]
    by_cases hr : rows = []
    · subst hr; rfl
    · simp only [List.length_eq_zero, hr, if_false, List.isEmpty_iff]
      cases hs : rows.find? isNonNullObject with
      | none => rfl
      | some sample =>
        simp only []
        rw [strOrNumKey_eq]
        cases hx : (keysOf sample).find? (fun k => isStringOrNumber (getField sample k)) with
        | none =>
          by_cases hk : keysOf sample = []
          · simp [hk]
          · simp [hx, List.length_eq_zero, hk]
        | some ck =>
          have hk : ¬ keysOf sample = [] := by
            intro h0
            rw [h0] at hx
            exact absurd hx (by simp)
          simp only [hx, List.length_eq_zero, hk, if_false]
          by_cases hck : ck = ""
          · subst hck; simp [truthy]
          · have ht : truthy (.vStr ck) = true := by simp [truthy, hck]
            simp only [ht, hck, if_false]
            rw [finiteNumberKey_eq, ← List.filter_filter]
            simp [List.length_eq_zero]
  | vNull => rfl
  | vUndefined => rfl
  | vBool b => rfl
  | vNum n => rfl
  | vStr s => rfl
  | vObj fs => rfl

/-- Writing a key and reading it back yields the written value. -/
theorem lookupField_setField_self (fs : List (String × JSVal)) (k : String) (v : JSVal) :
    lookupField (setField fs k v) k = v := by
  induction fs with
  | nil => simp [setField, lookupField, List.find?]
  | cons p rest ih =>
    by_cases h : (p.1 == k) = true
    · simp [setField, h, lookupField, List.find?]
    · simp only [setField, h, if_false, Bool.false_eq_true]
      simpa [lookupField, List.find?, h] using ih

/-- Writing one key does not change the reading of another. -/
theorem lookupField_setField_ne (fs : List (String × JSVal)) (k k2 : String) (v : JSVal)
    (hne : k2 ≠ k) :
    lookupField (setField fs k v) k2 = lookupField fs k2 := by
  have hkk : (k == k2) = false := by simpa using fun h => hne h.symm
  induction fs with
  | nil => simp [setField, lookupField, List.find?, hkk]
  | cons p rest ih =>
    by_cases h : (p.1 == k) = true
    · have hp : (p.1 == k2) = false := by
        have : p.1 = k := by simpa using h
        simpa [this] using fun h2 => hne h2.symm
      simp [setField, h, lookupField, List.find?, hkk, hp]
    · by_cases h2 : (p.1 == k2) = true
      · simp [setField, h, lookupField, List.find?, h2]
      · simp only [setField, h, if_false, Bool.false_eq_true]
        simpa [lookupField, List.find?, h, h2] using ih

/-- Keys not written by the construction loop read as in the accumulator. -/
theorem lookup_build_not_mem (row : JSVal) (ys : List String)
    (acc : List (String × JSVal)) (k : String) (hk : k ∉ ys) :
    lookupField (ys.foldl (sanStep row) acc) k = lookupField acc k := by
  induction ys generalizing acc with
  | nil => rfl
  | cons y rest ih =>
    have hky : k ≠ y := fun h => hk (h ▸ List.mem_cons_self y rest)
    have hkr : k ∉ rest := fun h => hk (List.mem_cons_of_mem _ h)
    rw [List.foldl_cons, ih _ hkr]
    exact lookupField_setField_ne _ _ _ _ hky

/-- Keys written by the construction loop read as their sanitized value. -/
theorem lookup_build_mem (row : JSVal) (ys : List String)
    (acc : List (String × JSVal)) (k : String) (hk : k ∈ ys) :
    lookupField (ys.foldl (sanStep row) acc) k = sanNum (getField row k) := by
  induction ys generalizing acc with
  | nil => cases hk
  | cons y rest ih =>
    rw [List.foldl_cons]
    by_cases hmem : k ∈ rest
    · exact ih _ hmem
    · have hky : k = y := by
        cases List.mem_cons.mp hk with
        | inl h => exact h
        | inr h => exact absurd h hmem
      subst hky
      rw [lookup_build_not_mem row rest _ k hmem]
      exact lookupField_setField_self _ _ _

/-- Reading the category key of a sanitized record yields the raw row
value. -/
theorem sanitizeRow_xKey (cs : ChartStructure) (row : JSVal) :
    getField (sanitizeRow cs row) cs.xKey = getField row cs.xKey := by
  show lookupField (setField _ cs.xKey (getField row cs.xKey)) cs.xKey = _
  exact lookupField_setField_self _ _ _

/-- Reading a value key of a sanitized record yields the sanitized numeric
coercion of the raw row value. -/
theorem sanitizeRow_yKey (cs : ChartStructure) (row : JSVal) (k : String)
    (hk : k ∈ cs.yKeys) (hne : k ≠ cs.xKey) :
    getField (sanitizeRow cs row) k = sanNum (getField row k) := by
  show lookupField (setField _ cs.xKey (getField row cs.xKey)) k = _
  rw [lookupField_setField_ne _ _ _ _ hne]
  exact lookup_build_mem row cs.yKeys [] k hk

/-- An inferred shape never lists its category key among its value keys. -/
theorem chartShape_yKeys_ne_xKey (data : JSVal) (cs : ChartStructure)
    (h : chartStructure data = some cs) : ∀ k ∈ cs.yKeys, k ≠ cs.xKey := by
  rw [chartStructure_eq_spec] at h
  cases data with
  | vArr rows =>
    simp only [specChartShape] at h
    split at h
    · exact absurd h (by simp)
    · split at h
      · exact absurd h (by simp)
      · split at h
        · exact absurd h (by simp)
        · split at h
          · exact absurd h (by simp)
          · split at h
            · exact absurd h (by simp)
            · rw [Option.some_inj] at h
              subst h
              intro k hkmem
              have h1 := (List.mem_filter.mp hkmem).1
              have h2 := (List.mem_filter.mp h1).2
              simpa using h2
  | vNull => exact absurd h (by simp [specChartShape])
  | vUndefined => exact absurd h (by simp [specChartShape])
  | vBool b => exact absurd h (by simp [specChartShape])
  | vNum n => exact absurd h (by simp [specChartShape])
  | vStr s => exact absurd h (by simp [specChartShape])
  | vObj fs => exact absurd h (by simp [specChartShape])

/-- Every row of the sanitized projection is the sanitization of some object
row of the input. -/
theorem mem_sanitize (data : JSVal) (cs : ChartStructure)
    (h : chartStructure data = some cs) (row : JSVal) (hrow : row ∈ sanitize data) :
    ∃ r, isObjectRow r = true ∧ row = sanitizeRow cs r := by
  simp only [sanitize, h] at hrow
  obtain ⟨r, hr, hmap⟩ := List.mem_map.mp hrow
  exact ⟨r, (List.mem_filter.mp hr).2, hmap.symm⟩

/-- Sanitizing an already-sanitized non-null entry is the identity. -/
theorem sanNum_idem (v : JSVal) (hv : sanNum v ≠ .vNull) :
    sanNum (sanNum v) = sanNum v := by
  by_cases hf : (toNumber v).isFinite = true
  · have h1 : sanNum v = .vNum (toNumber v) := by rw [sanNum, if_pos hf]
    have h2 : toNumber (.vNum (toNumber v)) = toNumber v := rfl
    rw [h1, sanNum, h2, if_pos hf]
  · have h1 : sanNum v = .vNull := by rw [sanNum, if_neg hf]
    exact absurd h1 hv

/-! ### Claim theorems -/

/-- C1 (amended): for every input, the inference yields no chart when the
input is not a non-empty array, when no row is a non-null object, when the
sample row has no field of type string or number, when the first such field
is named by the empty string, or when no remaining field of the sample row
holds a finite number; otherwise it selects as categoryKey the first
string-or-number field of the sample row and as valueKeys, order preserved,
every remaining field whose sample value is a finite number. -/
theorem chartShape_infer_spec (data : JSVal) :
    chartStructure data = specChartShape data :=
  chartStructure_eq_spec data

/-- C1 counterexample: on `[{"":"A","v":5}]` the claim as stated selects the
empty-named field as categoryKey and yields the shape `""`/`["v"]`, but the
code yields no chart. -/
theorem chartShape_infer_claim_cex :
    claimChartShape exC1 = some ⟨"", ["v"]⟩ ∧ chartStructure exC1 = none :=
  ⟨by decide, by decide⟩

/-- C2 (amended): when a shape is inferred, re-running sanitization with that
same shape on any row of the sanitized output preserves the category value
and every value-key entry that is not null; re-running the inference itself
on the sanitized output, however, does not in general yield the same
categoryKey (the category candidate becomes the first value key), so the
full inference-plus-sanitization round trip is not shape-preserving. -/
theorem sanitize_stable_on_sanitized (data : JSVal) (cs : ChartStructure)
    (h : chartStructure data = some cs) :
    ∀ row ∈ sanitize data,
      getField (sanitizeRow cs row) cs.xKey = getField row cs.xKey ∧
      ∀ k ∈ cs.yKeys, getField row k ≠ .vNull →
        getField (sanitizeRow cs row) k = getField row k := by
  intro row hrow
  refine ⟨sanitizeRow_xKey cs row, ?_⟩
  intro k hk hnn
  obtain ⟨r, hr, rfl⟩ := mem_sanitize data cs h row hrow
  have hne := chartShape_yKeys_ne_xKey data cs h k hk
  rw [sanitizeRow_yKey cs _ k hk hne]
  rw [sanitizeRow_yKey cs r k hk hne] at hnn ⊢
  exact sanNum_idem (getField r k) hnn

/-- C2 counterexample: on `[{"name":"A","value":5}]` inference yields the
shape `name`/`["value"]`, but re-running inference on the sanitized output
(whose record lists `value` before `name`) yields no shape at all; the
re-inferred categoryKey is therefore not the same. -/
theorem reinfer_sanitized_no_chart_cex :
    chartStructure exC2 = some ⟨"name", ["value"]⟩ ∧
    chartStructure (.vArr (sanitize exC2)) = none :=
  ⟨by decide, by decide⟩

/-- C2 witness: the amended theorem evaluated on `[{"name":"A","value":5}]`
and the single row of its sanitized output. -/
theorem sanitize_stable_on_sanitized_witness :
    chartStructure exC2 = some ⟨"name", ["value"]⟩ ∧
    getField (sanitizeRow ⟨"name", ["value"]⟩
        (.vObj [("value", .vNum (.fin ⟨5, 0⟩)), ("name", .vStr "A")])) "name"
      = .vStr "A" ∧
    getField (sanitizeRow ⟨"name", ["value"]⟩
        (.vObj [("value", .vNum (.fin ⟨5, 0⟩)), ("name", .vStr "A")])) "value"
      = .vNum (.fin ⟨5, 0⟩) := by
  refine ⟨by decide, ?_, ?_⟩
  · exact (sanitize_stable_on_sanitized exC2 ⟨"name", ["value"]⟩ (by decide)
      (.vObj [("value", .vNum (.fin ⟨5, 0⟩)), ("name", .vStr "A")])
      (List.mem_cons_self _ _)).1
  · exact (sanitize_stable_on_sanitized exC2 ⟨"name", ["value"]⟩ (by decide)
      (.vObj [("value", .vNum (.fin ⟨5, 0⟩)), ("name", .vStr "A")])
      (List.mem_cons_self _ _)).2 "value" (List.mem_cons_self _ _)
      (by intro hx; exact JSVal.noConfusion hx)

/-- C3 (amended): on a well-formed response whose `results` field is not
truthy, submit sets the sql field to the placeholder text
"Error generating SQL query" (not to the empty string), clears latency and
chart data to null, and sets the error to the response detail when that
detail is truthy, or to the fallback "Unable to generate SQL query."
otherwise. -/
theorem appError_branch_state (s : UIState) (data : JSVal)
    (h : jsTrim s.query ≠ "") (ht : truthy (getField data "results") = false) :
    handleQuery s (.success data) =
      { s with sqlOutput := .vStr "Error generating SQL query",
               latency := .vNull,
               chartData := .vNull,
               isLoading := false,
               error := if truthy (getField data "detail") = true
                        then getField data "detail"
                        else .vStr "Unable to generate SQL query." } := by
  rw [handleQuery, handleQueryTrace, if_neg h, if_neg (by simp [ht])]
  rfl

/-- C3 counterexample: on the response `{"detail":"no such table"}` the sql
field becomes the placeholder text, not the empty string the claim
prescribes (error and chart data are as claimed). -/
theorem appError_sql_placeholder_cex :
    (handleQuery s0 (.success dDetail)).sqlOutput = .vStr "Error generating SQL query" ∧
    "Error generating SQL query" ≠ "" ∧
    (handleQuery s0 (.success dDetail)).error = .vStr "no such table" ∧
    (handleQuery s0 (.success dDetail)).chartData = .vNull :=
  ⟨rfl, by decide, rfl, rfl⟩

/-- C3 witness: the amended theorem evaluated on `{"detail":"no such table"}`. -/
theorem appError_branch_state_witness :
    jsTrim s0.query ≠ "" ∧ truthy (getField dDetail "results") = false ∧
    handleQuery s0 (.success dDetail) =
      { s0 with sqlOutput := .vStr "Error generating SQL query",
                latency := .vNull, chartData := .vNull, isLoading := false,
                error := .vStr "no such table" } :=
  ⟨by decide, by decide, appError_branch_state s0 dDetail (by decide) (by decide)⟩

/-- C4 (amended): on a response whose `results` field is truthy (not merely
non-null, see C9), submit stores `sql_query` as the sql state, `latency`
(defaulting to null when absent or null) as the latency state, `results` as
the chart data, and leaves the error state empty, having cleared it at
dispatch. -/
theorem success_branch_state (s : UIState) (data : JSVal)
    (h : jsTrim s.query ≠ "") (ht : truthy (getField data "results") = true) :
    handleQuery s (.success data) =
      { s with sqlOutput := getField data "sql_query",
               latency := match getField data "latency" with
                          | .vNull => .vNull
                          | .vUndefined => .vNull
                          | v => v,
               chartData := getField data "results",
               isLoading := false,
               error := .vStr "" } := by
  rw [handleQuery, handleQueryTrace, if_neg h, if_pos ht]
  rfl

/-- C4 counterexample: on `{"results":0,"sql_query":"S"}` the `results`
field is present and non-null, yet submit takes the error branch: chart data
is cleared and the error is set to the fallback message instead of staying
empty. -/
theorem nonnull_falsy_results_cex :
    isNull (getField dFalsy "results") = false ∧
    (handleQuery s0 (.success dFalsy)).chartData = .vNull ∧
    (handleQuery s0 (.success dFalsy)).error = .vStr "Unable to generate SQL query." ∧
    "Unable to generate SQL query." ≠ "" :=
  ⟨rfl, rfl, rfl, by decide⟩

/-- C4 witness: the amended theorem evaluated on the section 8 sample
response. -/
theorem success_branch_state_witness :
    jsTrim s0.query ≠ "" ∧ truthy (getField d8 "results") = true ∧
    handleQuery s0 (.success d8) =
      { s0 with sqlOutput := .vStr "SELECT ...",
                latency := .vObj [("total_time", .vNum (.fin ⟨5, -1⟩))],
                chartData := .vArr [.vObj [("region", .vStr "west"), ("sales", .vNum (.fin ⟨10, 0⟩))],
                                    .vObj [("region", .vStr "east"), ("sales", .vNum (.fin ⟨20, 0⟩))]],
                isLoading := false, error := .vStr "" } :=
  ⟨by decide, by decide, success_branch_state s0 d8 (by decide) (by decide)⟩

/-- C5: for every non-empty (after trimming) question, submit sets loading
to false exactly once, on each of the three exit paths (success, handled
application error, transport exception), and the final state has loading
false. -/
theorem loading_cleared_once (s : UIState) (o : FetchOutcome)
    (h : jsTrim s.query ≠ "") :
    loadingClearCount (handleQueryTrace s o) = 1 ∧
    (handleQuery s o).isLoading = false := by
  cases o with
  | failure =>
    rw [handleQuery, handleQueryTrace, if_neg h]
    exact ⟨rfl, rfl⟩
  | success data =>
    by_cases ht : truthy (getField data "results") = true
    · rw [handleQuery, handleQueryTrace, if_neg h, if_pos ht]
      exact ⟨rfl, rfl⟩
    · rw [handleQuery, handleQueryTrace, if_neg h, if_neg ht]
      exact ⟨rfl, rfl⟩

/-- C5 witness: the theorem evaluated on a non-empty query and the transport
failure path. -/
theorem loading_cleared_once_witness :
    jsTrim s0.query ≠ "" ∧
    loadingClearCount (handleQueryTrace s0 .failure) = 1 ∧
    (handleQuery s0 .failure).isLoading = false :=
  ⟨by decide, (loading_cleared_once s0 .failure (by decide)).1,
   (loading_cleared_once s0 .failure (by decide)).2⟩

/-- C6: on transport failure, submit clears all result fields (sql to the
empty string, latency and chart data to null) and sets the error state to
the fixed connectivity message. -/
theorem transport_failure_state (s : UIState) (h : jsTrim s.query ≠ "") :
    handleQuery s .failure =
      { s with sqlOutput := .vStr "",
               latency := .vNull,
               chartData := .vNull,
               isLoading := false,
               error := .vStr "There was a problem connecting to the server." } := by
  rw [handleQuery, handleQueryTrace, if_neg h]
  rfl

/-- C6 witness: the theorem evaluated on a concrete idle state. -/
theorem transport_failure_state_witness :
    jsTrim s0.query ≠ "" ∧
    handleQuery s0 .failure =
      { s0 with sqlOutput := .vStr "", latency := .vNull, chartData := .vNull,
                isLoading := false,
                error := .vStr "There was a problem connecting to the server." } :=
  ⟨by decide, transport_failure_state s0 (by decide)⟩

/-- C7: for every question that trims to the empty string, submit is a
no-op: it executes no effects at all, in particular no network call, and
the state is unchanged. -/
theorem empty_query_noop (s : UIState) (o : FetchOutcome)
    (h : jsTrim s.query = "") :
    handleQueryTrace s o = [] ∧ fetchCount (handleQueryTrace s o) = 0 ∧
    handleQuery s o = s := by
  have ht : handleQueryTrace s o = [] := by rw [handleQueryTrace.eq_def, if_pos h]
  refine ⟨ht, ?_, ?_⟩
  · rw [ht]; rfl
  · rw [handleQuery, ht]; rfl

/-- C7 witness: the theorem evaluated on a whitespace-only query. -/
theorem empty_query_noop_witness :
    jsTrim sBlank.query = "" ∧ handleQueryTrace sBlank .failure = [] ∧
    fetchCount (handleQueryTrace sBlank .failure) = 0 ∧
    handleQuery sBlank .failure = sBlank :=
  ⟨by decide, (empty_query_noop sBlank .failure (by decide)).1,
   (empty_query_noop sBlank .failure (by decide)).2.1,
   (empty_query_noop sBlank .failure (by decide)).2.2⟩

/-- C8: when a shape is inferred, the sanitized projection keeps exactly the
non-null object rows, and each sanitized record carries the raw category
value unchanged and, for each value key, the numeric coercion of the row
value, with null substituted when the coercion is not finite; in particular
on `[{"name":"A","value":5},{"name":"B","value":"oops"}]` the shape is
`name`/`["value"]` and the second row value sanitizes to null. -/
theorem sanitize_projection_spec (data : JSVal) (cs : ChartStructure)
    (h : chartStructure data = some cs) :
    sanitize data = ((rowsOf data).filter isNonNullObject).map (sanitizeRow cs) ∧
    (∀ row, getField (sanitizeRow cs row) cs.xKey = getField row cs.xKey) ∧
    (∀ row k, k ∈ cs.yKeys →
      getField (sanitizeRow cs row) k =
        (if (toNumber (getField row k)).isFinite = true
         then .vNum (toNumber (getField row k)) else .vNull)) ∧
    chartStructure exC8 = some ⟨"name", ["value"]⟩ ∧
    sanitize exC8 =
      [.vObj [("value", .vNum (.fin ⟨5, 0⟩)), ("name", .vStr "A")],
       .vObj [("value", .vNull), ("name", .vStr "B")]] := by
  refine ⟨?_, fun row => sanitizeRow_xKey cs row, ?_, by decide, by rfl⟩
  · simp only [sanitize, h, isObjectRow_eq]
  · intro row k hk
    rw [sanitizeRow_yKey cs row k hk (chartShape_yKeys_ne_xKey data cs h k hk)]
    rfl

/-- C8 witness: the theorem evaluated on the section 8 sample input. -/
theorem sanitize_projection_spec_witness :
    chartStructure exC8 = some ⟨"name", ["value"]⟩ ∧
    sanitize exC8 =
      ((rowsOf exC8).filter isNonNullObject).map (sanitizeRow ⟨"name", ["value"]⟩) :=
  ⟨by decide, (sanitize_projection_spec exC8 ⟨"name", ["value"]⟩ (by decide)).1⟩

/-- C9 (implicit): the controller branches on the truthiness of the
`results` field, not its non-nullness: any response with a falsy `results`
takes the error branch, while a present empty array (truthy) takes the
success branch and stores an empty chart-data array; `0`, `""`, `false` and
`NaN` are all falsy yet non-null, and `[]` is truthy. -/
theorem results_truthiness_branching (s : UIState) (data : JSVal)
    (h : jsTrim s.query ≠ "") :
    ((truthy (getField data "results") = false →
        (handleQuery s (.success data)).chartData = .vNull ∧
        (handleQuery s (.success data)).sqlOutput = .vStr "Error generating SQL query") ∧
     (getField data "results" = .vArr [] →
        (handleQuery s (.success data)).chartData = .vArr [] ∧
        (handleQuery s (.success data)).error = .vStr "")) ∧
    truthy (.vNum (.fin ⟨0, 0⟩)) = false ∧ isNull (.vNum (.fin ⟨0, 0⟩)) = false ∧
    truthy (.vStr "") = false ∧ isNull (.vStr "") = false ∧
    truthy (.vBool false) = false ∧ isNull (.vBool false) = false ∧
    truthy (.vNum .nan) = false ∧ isNull (.vNum .nan) = false ∧
    truthy (.vArr []) = true := by
  refine ⟨⟨?_, ?_⟩, rfl, rfl, rfl, rfl, rfl, rfl, rfl, rfl, rfl⟩
  · intro hf
    rw [handleQuery, handleQueryTrace, if_neg h, if_neg (by simp [hf])]
    exact ⟨rfl, rfl⟩
  · intro he
    rw [handleQuery, handleQueryTrace, if_neg h, if_pos (by rw [he]; rfl)]
    rw [he]
    exact ⟨rfl, rfl⟩

/-- C9 witness: the theorem evaluated on `{"results":[],"sql_query":"S"}`. -/
theorem results_truthiness_branching_witness :
    jsTrim s0.query ≠ "" ∧
    (((truthy (getField dEmptyResults "results") = false →
        (handleQuery s0 (.success dEmptyResults)).chartData = .vNull ∧
        (handleQuery s0 (.success dEmptyResults)).sqlOutput = .vStr "Error generating SQL query") ∧
      (getField dEmptyResults "results" = .vArr [] →
        (handleQuery s0 (.success dEmptyResults)).chartData = .vArr [] ∧
        (handleQuery s0 (.success dEmptyResults)).error = .vStr "")) ∧
     truthy (.vNum (.fin ⟨0, 0⟩)) = false ∧ isNull (.vNum (.fin ⟨0, 0⟩)) = false ∧
     truthy (.vStr "") = false ∧ isNull (.vStr "") = false ∧
     truthy (.vBool false) = false ∧ isNull (.vBool false) = false ∧
     truthy (.vNum .nan) = false ∧ isNull (.vNum .nan) = false ∧
     truthy (.vArr []) = true) :=
  ⟨by decide, results_truthiness_branching s0 dEmptyResults (by decide)⟩

/-- C10 (implicit): the inference tests the found category key for
truthiness rather than existence, so whenever the first string-or-number
field of the sample row is named by the empty string the result is no chart,
even though that qualifying field exists in the sample row. -/
theorem empty_string_category_no_chart (rows : List JSVal) (sample : JSVal)
    (hs : rows.find? isObjectRow = some sample)
    (hx : (keysOf sample).find? (strOrNumKey sample) = some "") :
    chartStructure (.vArr rows) = none ∧
    "" ∈ keysOf sample ∧ strOrNumKey sample "" = true := by
  have hmem := List.mem_of_find?_eq_some hx
  have hqual := List.find?_some hx
  refine ⟨?_, hmem, hqual⟩
  have hr : ¬ rows.length = 0 := by
    intro h0
    rw [List.length_eq_zero] at h0
    subst h0
    exact absurd hs (by simp)
  have hk : ¬ (keysOf sample).length = 0 := by
    intro h0
    rw [List.length_eq_zero] at h0
    rw [h0] at hx
    exact absurd hx (by simp)
  simp only [chartStructure, hr, if_false, hs, hk, hx]
  rfl

/-- C10 witness: the theorem evaluated on the one-row input whose sample row
is `{"":"A","n":7}`. -/
theorem empty_string_category_no_chart_witness :
    ([exC10row].find? isObjectRow = some exC10row) ∧
    ((keysOf exC10row).find? (strOrNumKey exC10row) = some "") ∧
    chartStructure (.vArr [exC10row]) = none ∧
    "" ∈ keysOf exC10row ∧ strOrNumKey exC10row "" = true :=
  ⟨rfl, rfl, (empty_string_category_no_chart [exC10row] exC10row rfl rfl).1,
   (empty_string_category_no_chart [exC10row] exC10row rfl rfl).2.1,
   (empty_string_category_no_chart [exC10row] exC10row rfl rfl).2.2⟩

end NLQuery
